import Mathlib

/-!
Verification of the notification pipeline in
src/extras/create_send_notifications.py.

The module orchestrates four phases: resolving the set of organizations
owed a notification (build_notifications_org_list together with the
recursive find_cyhy_parents), generating one encrypted PDF per
organization (generate_notification_pdfs), triggering the external
delivery collaborator, and two record-cleanup deletions against the
store.  Organization identifiers are modelled as natural numbers; the
Mongo collections are modelled as lists of documents; the external
renderer and the delivery process are modelled as explicit parameters
of the run environment.  The unbounded Python recursion of
find_cyhy_parents is modelled with an explicit fuel argument: the
Python call terminates on a given store exactly when some fuel value
makes the model return some result, and a store on which the model
returns none for every fuel is a store on which the Python recursion
never terminates.
-/

namespace CreateSendNotifications

/-- A document of the RequestDoc collection: its Mongo id, its list of
child organization ids, and its report_types array. -/
structure RequestDoc where
  id : Nat
  children : List Nat
  report_types : List String
deriving DecidableEq

/-- A document of the notifications collection: the ticket_owner field
and the generated_for array. -/
structure NotificationDoc where
  ticket_owner : Nat
  generated_for : List Nat
deriving DecidableEq

/-- The document store: the RequestDoc collection and the notifications
collection (NotificationDoc). -/
structure DB where
  requestDocs : List RequestDoc
  notifications : List NotificationDoc
deriving DecidableEq

/-- The distinct ticket_owner values of the notifications collection, as
queried by db.notifications.distinct in build_notifications_org_list.
Only membership matters downstream, so the plain value list is kept. -/
def ticket_owner_ids (db : DB) : List Nat :=
  db.notifications.map (fun d => d.ticket_owner)

/-- The Mongo filter of find_cyhy_parents: documents whose children
array contains orgId and whose report_types array contains CYHY. -/
def cyhyParentMatch (orgId : Nat) (r : RequestDoc) : Bool :=
  decide (orgId ∈ r.children) && decide ("CYHY" ∈ r.report_types)

/-- The result list of the find query inside find_cyhy_parents. -/
def matchesOf (db : DB) (orgId : Nat) : List RequestDoc :=
  db.requestDocs.filter (cyhyParentMatch orgId)

/-- The loop body shared by find_cyhy_parents and
build_notifications_org_list: walk a list of matching request
documents, add each document id, and union the recursive parent set
obtained for that id from the given lookup function.  The lookup is
fallible (fuel exhaustion), and any failure aborts the whole loop. -/
def orgLoop (lookup : Nat → Option (Finset Nat)) :
    List RequestDoc → Option (Finset Nat)
  | [] => some ∅
  | r :: rs =>
    match lookup r.id, orgLoop lookup rs with
    | some s, some rest => some (insert r.id (s ∪ rest))
    | _, _ => none

/-- Shallow embedding of find_cyhy_parents.  The Python function
recurses with no cycle protection; the model spends one unit of fuel
per recursion level and returns none when the fuel runs out, so the
Python call terminates on a store exactly when some fuel suffices. -/
def find_cyhy_parents (db : DB) (fuel : Nat) (orgId : Nat) :
    Option (Finset Nat) :=
  match fuel with
  | 0 => none
  | Nat.succ n => orgLoop (fun x => find_cyhy_parents db n x) (matchesOf db orgId)

/-- The seed query of build_notifications_org_list: request documents
whose id is one of the distinct ticket owners and whose report_types
array contains CYHY. -/
def seedDocs (db : DB) : List RequestDoc :=
  db.requestDocs.filter
    (fun r => decide (r.id ∈ ticket_owner_ids db) && decide ("CYHY" ∈ r.report_types))

/-- The seed set itself: the ids of the seed documents. -/
def seedSet (db : DB) : Finset Nat :=
  ((seedDocs db).map (fun r => r.id)).toFinset

/-- Shallow embedding of build_notifications_org_list: for every seed
document, add its id and union the recursive CYHY-parent closure of
that id; the result is the seed ids together with every discovered
ancestor.  Fuel is threaded into each find_cyhy_parents call. -/
def build_notifications_org_list (db : DB) (fuel : Nat) : Option (Finset Nat) :=
  orgLoop (fun x => find_cyhy_parents db fuel x) (seedDocs db)

/-- Organization p is a direct CYHY parent of organization o: some
request document with id p lists o among its children and carries the
CYHY report type. -/
def ParentOf (db : DB) (o p : Nat) : Prop :=
  ∃ r ∈ db.requestDocs, r.id = p ∧ o ∈ r.children ∧ "CYHY" ∈ r.report_types

/-- The Python recursion of find_cyhy_parents diverges at this
argument: no amount of fuel makes the model produce a result. -/
def findDiverges (db : DB) (orgId : Nat) : Prop :=
  ∀ fuel, find_cyhy_parents db fuel orgId = none

/-- The Python call build_notifications_org_list diverges on this
store: no amount of fuel makes the model produce a result. -/
def buildDiverges (db : DB) : Prop :=
  ∀ fuel, build_notifications_org_list db fuel = none

/-- When the shared loop succeeds, every listed document had a
successful lookup whose result is contained in the loop result, and
the document id itself landed in the loop result. -/
lemma orgLoop_mem_of_doc (lookup : Nat → Option (Finset Nat)) :
    ∀ l s, orgLoop lookup l = some s → ∀ r ∈ l,
      ∃ sr, lookup r.id = some sr ∧ sr ⊆ s ∧ r.id ∈ s := by
  intro l
  induction l with
  | nil => intro s _ r hr; simp at hr
  | cons a rs ih =>
    intro s hs r hr
    simp only [orgLoop] at hs
    rcases ha : lookup a.id with _ | sa <;> rw [ha] at hs
    · exact absurd hs (by simp)
    rcases hrest : orgLoop lookup rs with _ | rest <;> rw [hrest] at hs
    · exact absurd hs (by simp)
    simp only [Option.some.injEq] at hs
    subst hs
    rcases List.mem_cons.mp hr with h | h
    · subst h
      exact ⟨sa, ha, fun x hx => Finset.mem_insert_of_mem (Finset.mem_union_left _ hx),
        Finset.mem_insert_self _ _⟩
    · rcases ih rest hrest r h with ⟨sr, h1, h2, h3⟩
      exact ⟨sr, h1, fun x hx => Finset.mem_insert_of_mem (Finset.mem_union_right _ (h2 hx)),
        Finset.mem_insert_of_mem (Finset.mem_union_right _ h3)⟩

/-- When the shared loop succeeds, every member of its result is either
the id of a listed document or a member of the successful lookup result
of some listed document. -/
lemma orgLoop_mem_cases (lookup : Nat → Option (Finset Nat)) :
    ∀ l s, orgLoop lookup l = some s → ∀ x ∈ s,
      ∃ r ∈ l, x = r.id ∨ ∃ sr, lookup r.id = some sr ∧ x ∈ sr := by
  intro l
  induction l with
  | nil =>
    intro s hs x hx
    simp only [orgLoop, Option.some.injEq] at hs
    subst hs
    simp at hx
  | cons a rs ih =>
    intro s hs x hx
    simp only [orgLoop] at hs
    rcases ha : lookup a.id with _ | sa <;> rw [ha] at hs
    · exact absurd hs (by simp)
    rcases hrest : orgLoop lookup rs with _ | rest <;> rw [hrest] at hs
    · exact absurd hs (by simp)
    simp only [Option.some.injEq] at hs
    subst hs
    rcases Finset.mem_insert.mp hx with h | h
    · exact ⟨a, List.mem_cons_self a rs, Or.inl h⟩
    rcases Finset.mem_union.mp h with h | h
    · exact ⟨a, List.mem_cons_self a rs, Or.inr ⟨sa, ha, h⟩⟩
    · rcases ih rest hrest x h with ⟨r, h1, h2⟩
      exact ⟨r, List.mem_cons_of_mem a h1, h2⟩

/-- Membership in the filtered match list is exactly the direct
CYHY-parent relation. -/
lemma mem_matchesOf (db : DB) (orgId : Nat) (r : RequestDoc) :
    r ∈ matchesOf db orgId ↔
      r ∈ db.requestDocs ∧ orgId ∈ r.children ∧ "CYHY" ∈ r.report_types := by
  simp [matchesOf, cyhyParentMatch, List.mem_filter, and_assoc]

/-- The direct parent relation holds exactly when some match-list
document has the parent as its id. -/
lemma parentOf_iff (db : DB) (o p : Nat) :
    ParentOf db o p ↔ ∃ r ∈ matchesOf db o, r.id = p := by
  constructor
  · rintro ⟨r, h1, h2, h3, h4⟩
    exact ⟨r, (mem_matchesOf db o r).mpr ⟨h1, h3, h4⟩, h2⟩
  · rintro ⟨r, h1, h2⟩
    rcases (mem_matchesOf db o r).mp h1 with ⟨h3, h4, h5⟩
    exact ⟨r, h3, h2, h4, h5⟩

/-- Soundness of the recursive lookup: every member of a successful
find_cyhy_parents result is a transitive CYHY parent of the query
organization. -/
lemma find_cyhy_parents_sound (db : DB) :
    ∀ fuel orgId s, find_cyhy_parents db fuel orgId = some s →
      ∀ x ∈ s, Relation.TransGen (ParentOf db) orgId x := by
  intro fuel
  induction fuel with
  | zero => intro o s hs; exact absurd hs (by simp [find_cyhy_parents])
  | succ n ih =>
    intro o s hs x hx
    simp only [find_cyhy_parents] at hs
    rcases orgLoop_mem_cases _ _ _ hs x hx with ⟨r, hr, hcase⟩
    have hpar : ParentOf db o r.id := (parentOf_iff db o r.id).mpr ⟨r, hr, rfl⟩
    rcases hcase with h | ⟨sr, h1, h2⟩
    · subst h; exact Relation.TransGen.single hpar
    · exact Relation.TransGen.head hpar (ih r.id sr h1 x h2)

/-- Completeness of the recursive lookup: whenever find_cyhy_parents
succeeds, its result contains every transitive CYHY parent of the
query organization. -/
lemma find_cyhy_parents_complete (db : DB) {o x : Nat}
    (h : Relation.TransGen (ParentOf db) o x) :
    ∀ fuel s, find_cyhy_parents db fuel o = some s → x ∈ s := by
  induction h using Relation.TransGen.head_induction_on with
  | base hpar =>
    intro fuel s hs
    match fuel with
    | 0 => exact absurd hs (by simp [find_cyhy_parents])
    | Nat.succ n =>
      simp only [find_cyhy_parents] at hs
      rcases (parentOf_iff db _ _).mp hpar with ⟨r, hr, hid⟩
      rcases orgLoop_mem_of_doc _ _ _ hs r hr with ⟨_, _, _, hmem⟩
      exact hid ▸ hmem
  | ih hpar _ hrec =>
    intro fuel s hs
    match fuel with
    | 0 => exact absurd hs (by simp [find_cyhy_parents])
    | Nat.succ n =>
      simp only [find_cyhy_parents] at hs
      rcases (parentOf_iff db _ _).mp hpar with ⟨r, hr, hid⟩
      rcases orgLoop_mem_of_doc _ _ _ hs r hr with ⟨sr, h1, h2, _⟩
      exact h2 (hrec n sr (hid ▸ h1))

/-- Full characterization of a successful find_cyhy_parents result:
its members are exactly the transitive CYHY parents. -/
lemma find_cyhy_parents_mem_iff (db : DB) {fuel o : Nat} {s : Finset Nat}
    (h : find_cyhy_parents db fuel o = some s) (x : Nat) :
    x ∈ s ↔ Relation.TransGen (ParentOf db) o x :=
  ⟨fun hx => find_cyhy_parents_sound db fuel o s h x hx,
   fun hr => find_cyhy_parents_complete db hr fuel s h⟩

/-- Membership in the seed set is membership among the ids of the seed
documents. -/
lemma mem_seedSet (db : DB) (x : Nat) :
    x ∈ seedSet db ↔ ∃ r ∈ seedDocs db, r.id = x := by
  simp [seedSet, List.mem_toFinset, List.mem_map, eq_comm]

/-- Full characterization of a successful build_notifications_org_list
result: its members are exactly the seed organizations and the
transitive CYHY parents of seed organizations. -/
lemma build_notifications_org_list_mem_iff (db : DB) {fuel : Nat} {s : Finset Nat}
    (h : build_notifications_org_list db fuel = some s) (x : Nat) :
    x ∈ s ↔ x ∈ seedSet db ∨
      ∃ a ∈ seedSet db, Relation.TransGen (ParentOf db) a x := by
  simp only [build_notifications_org_list] at h
  constructor
  · intro hx
    rcases orgLoop_mem_cases _ _ _ h x hx with ⟨r, hr, hcase⟩
    rcases hcase with hcase | ⟨sr, h1, h2⟩
    · exact Or.inl ((mem_seedSet db x).mpr ⟨r, hr, hcase.symm⟩)
    · exact Or.inr ⟨r.id, (mem_seedSet db r.id).mpr ⟨r, hr, rfl⟩,
        find_cyhy_parents_sound db fuel r.id sr h1 x h2⟩
  · intro hx
    rcases hx with hx | ⟨a, ha, hreach⟩
    · rcases (mem_seedSet db x).mp hx with ⟨r, hr, hid⟩
      rcases orgLoop_mem_of_doc _ _ _ h r hr with ⟨_, _, _, hmem⟩
      exact hid ▸ hmem
    · rcases (mem_seedSet db a).mp ha with ⟨r, hr, hid⟩
      rcases orgLoop_mem_of_doc _ _ _ h r hr with ⟨sr, h1, h2, _⟩
      exact h2 (find_cyhy_parents_complete db hreach fuel sr (hid ▸ h1))

/-- A store whose parent graph has the one-step cycle 0 to 0: the only
request document has id 0, lists 0 among its own children, and carries
the CYHY report type; one pending notification is owned by 0, so the
seed set is exactly the singleton 0. -/
def cycleDB : DB :=
  { requestDocs := [{ id := 0, children := [0], report_types := ["CYHY"] }],
    notifications := [{ ticket_owner := 0, generated_for := [] }] }

/-- On the cyclic store the recursive lookup for organization 0 runs
out of any amount of fuel: the Python recursion never terminates. -/
lemma find_cycle_none : ∀ fuel, find_cyhy_parents cycleDB fuel 0 = none := by
  intro fuel
  induction fuel with
  | zero => rfl
  | succ n ih =>
    have hm : matchesOf cycleDB 0 =
        [{ id := 0, children := [0], report_types := ["CYHY"] }] := rfl
    simp only [find_cyhy_parents, hm, orgLoop, ih]

/-- On the cyclic store the whole resolver runs out of any amount of
fuel: the Python build_notifications_org_list call never terminates. -/
lemma build_cycle_none : buildDiverges cycleDB := by
  intro fuel
  have hseed : seedDocs cycleDB =
      [{ id := 0, children := [0], report_types := ["CYHY"] }] := rfl
  simp only [build_notifications_org_list, hseed, orgLoop, find_cycle_none]

/-- An acyclic three-level store: organization 0 owns a pending
notification and carries the CYHY marker, organization 1 is its marked
parent, organization 2 is its marked grandparent. -/
def chainDB : DB :=
  { requestDocs :=
      [{ id := 0, children := [], report_types := ["CYHY"] },
       { id := 1, children := [0], report_types := ["CYHY"] },
       { id := 2, children := [1], report_types := ["CYHY"] }],
    notifications := [{ ticket_owner := 0, generated_for := [] }] }

/-- The structured result returned by the external renderer when it is
not null: only the notifications collection matters to the caller, and
only through its length, so its entries are kept opaque as numbers. -/
structure GenResults where
  notifications : List Nat
deriving DecidableEq

/-- The external renderer collaborator, one outcome per organization:
the was_encrypted boolean paired with the nullable structured result,
exactly the pair generator.generate_notification returns. -/
def Renderer : Type := Nat → Bool × Option GenResults

/-- The loop of generate_notification_pdfs with its running counter:
an encrypted outcome increments the counter, a non-null result with an
empty notifications collection leaves it unchanged, and anything else
makes the function return -1 at once, skipping the remaining
organizations. -/
def generate_loop (render : Renderer) : Nat → List Nat → Int
  | acc, [] => Int.ofNat acc
  | acc, o :: rest =>
    match render o with
    | (true, _) => generate_loop render (acc + 1) rest
    | (false, some res) =>
      if res.notifications.length = 0 then generate_loop render acc rest else -1
    | (false, none) => -1

/-- Shallow embedding of generate_notification_pdfs: fold the renderer
outcomes over the organization list starting from a zero counter. -/
def generate_notification_pdfs (render : Renderer) (org_ids : List Nat) : Int :=
  generate_loop render 0 org_ids

/-- An organization has a no-content outcome when the renderer returns
a non-null result holding an empty notifications collection. -/
def noContent (render : Renderer) (o : Nat) : Bool :=
  match (render o).2 with
  | some res => res.notifications.isEmpty
  | none => false

/-- Shallow embedding of a Mongo delete_many call against the
notifications collection: remove every document matching the
predicate and report the deleted count. -/
def delete_many (p : NotificationDoc → Bool) (docs : List NotificationDoc) :
    List NotificationDoc × Nat :=
  (docs.filter (fun d => !(p d)), (docs.filter p).length)

/-- The delivered-batch predicate: generated_for is not the empty
array. -/
def deliveredPred (d : NotificationDoc) : Bool :=
  decide (d.generated_for ≠ [])

/-- The ineligible-owner predicate: ticket_owner is not in the
cyhy_org_ids universe. -/
def ineligiblePred (cyhy_org_ids : List Nat) (d : NotificationDoc) : Bool :=
  decide (d.ticket_owner ∉ cyhy_org_ids)

/-- The per-run environment: the store, the renderer collaborator, and
the exit status the external delivery process would report if
invoked. -/
structure RunEnv where
  db : DB
  render : Renderer
  deliveryExit : Int

/-- The observable effects of one pipeline run of main, past the
logging and configuration prologue: the organization list handed to
the generator, the value the generator returned, whether the delivery
collaborator was invoked and with which exit status, whether and with
which count each of the two cleanups ran, the intermediate and final
states of the notifications collection, and the returned exit code. -/
structure RunTrace where
  generatorInput : List Nat
  numPdfsCreated : Int
  deliveryInvoked : Bool
  deliveryExitCode : Option Int
  deliveredCleanupCount : Option Nat
  docsAfterDelivered : List NotificationDoc
  ineligibleCleanupRan : Bool
  ineligibleCleanupCount : Nat
  docsFinal : List NotificationDoc
  exitCode : Int
deriving DecidableEq

/-- Modelled from the spec: the pipeline body of main references the
global name cyhy_org_ids, whose construction appears nowhere in the
source; following the spec, it is treated as an externally supplied
configuration set and threaded here as an explicit parameter.  The
rest of the function is the source control flow of main: run the
generator over cyhy_org_ids; if the returned value is nonzero (Python
truthiness, so -1 included) invoke the delivery collaborator and then
delete every notification with a non-empty generated_for regardless of
the delivery exit status, else skip both; finally, unconditionally
delete every notification whose ticket_owner is outside cyhy_org_ids
and return 0. -/
def main_run (cyhy_org_ids : List Nat) (env : RunEnv) : RunTrace :=
  let num := generate_notification_pdfs env.render cyhy_org_ids
  if num ≠ 0 then
    let afterDelivered := delete_many deliveredPred env.db.notifications
    let afterIneligible := delete_many (ineligiblePred cyhy_org_ids) afterDelivered.1
    { generatorInput := cyhy_org_ids
      numPdfsCreated := num
      deliveryInvoked := true
      deliveryExitCode := some env.deliveryExit
      deliveredCleanupCount := some afterDelivered.2
      docsAfterDelivered := afterDelivered.1
      ineligibleCleanupRan := true
      ineligibleCleanupCount := afterIneligible.2
      docsFinal := afterIneligible.1
      exitCode := 0 }
  else
    let afterIneligible := delete_many (ineligiblePred cyhy_org_ids) env.db.notifications
    { generatorInput := cyhy_org_ids
      numPdfsCreated := num
      deliveryInvoked := false
      deliveryExitCode := none
      deliveredCleanupCount := none
      docsAfterDelivered := env.db.notifications
      ineligibleCleanupRan := true
      ineligibleCleanupCount := afterIneligible.2
      docsFinal := afterIneligible.1
      exitCode := 0 }

/-- A Python value at module scope, kept only as precisely as the
claims need: imported modules, functions, strings, the module-load
timestamp, and lists of organization ids. -/
inductive PyValue
  | module
  | func
  | strV (s : String)
  | timeV
  | listV (l : List Nat)
deriving DecidableEq

/-- A Python runtime error relevant to the pipeline prologue: an
unresolvable name, or a value of the wrong shape where a list is
needed. -/
inductive PyError
  | nameError (n : String)
  | typeMismatch
deriving DecidableEq

/-- Every top-level binding of the module, in source order: the six
plain imports, the three from-imports, the four assignments, and
the four function definitions plus main.  This is the global
dictionary against which Python resolves any name that is not
assigned inside the executing function body; cyhy_org_ids is never
assigned inside main, so its load at the generator call site resolves
against exactly this dictionary. -/
def moduleGlobals : List (String × PyValue) :=
  [("distutils", PyValue.module),
   ("logging", PyValue.module),
   ("os", PyValue.module),
   ("subprocess", PyValue.module),
   ("sys", PyValue.module),
   ("docopt", PyValue.module),
   ("Config", PyValue.func),
   ("database", PyValue.module),
   ("util", PyValue.module),
   ("NotificationGenerator", PyValue.func),
   ("current_time", PyValue.timeV),
   ("NOTIFICATIONS_BASE_DIR", PyValue.strV "/var/cyhy/reports/output"),
   ("NOTIFICATION_ARCHIVE_DIR", PyValue.strV "notification_archive/notifications-dated"),
   ("CYHY_MAILER_DIR", PyValue.strV "/var/cyhy/cyhy-mailer"),
   ("create_output_directories", PyValue.func),
   ("build_notifications_org_list", PyValue.func),
   ("find_cyhy_parents", PyValue.func),
   ("generate_notification_pdfs", PyValue.func),
   ("main", PyValue.func)]

/-- Resolution of a global name against the module dictionary. -/
def pyLookup (n : String) : Option PyValue :=
  (moduleGlobals.find? (fun p => p.1 == n)).map (fun p => p.2)

/-- The log-level strings accepted by the logging prologue of main;
any other value raises ValueError there and main returns 1. -/
def validLogLevel (s : String) : Bool :=
  decide (s ∈ ["debug", "info", "warning", "error", "critical"])

/-- The trace of a run that stops in the configuration prologue with
exit code 1: no generation, no delivery, no cleanup, store
untouched. -/
def configErrorTrace (env : RunEnv) : RunTrace :=
  { generatorInput := []
    numPdfsCreated := 0
    deliveryInvoked := false
    deliveryExitCode := none
    deliveredCleanupCount := none
    docsAfterDelivered := env.db.notifications
    ineligibleCleanupRan := false
    ineligibleCleanupCount := 0
    docsFinal := env.db.notifications
    exitCode := 1 }

/-- Shallow embedding of main as the module defines it: an invalid log
level returns 1 from the prologue; otherwise execution reaches the
generator call, whose argument cyhy_org_ids is loaded as a global
name, and only if that load yields a list does the pipeline body
main_run run.  Since cyhy_org_ids is never assigned in main, Python
compiles the reference as a global load, so the module dictionary is
the only place consulted. -/
def main_exec (logLevel : String) (env : RunEnv) : Except PyError RunTrace :=
  if validLogLevel logLevel then
    match pyLookup "cyhy_org_ids" with
    | some (PyValue.listV ids) => Except.ok (main_run ids env)
    | some _ => Except.error PyError.typeMismatch
    | none => Except.error (PyError.nameError "cyhy_org_ids")
  else
    Except.ok (configErrorTrace env)

/-- The generator loop on an error-free list adds one per encrypted
outcome to the running counter and nothing per no-content outcome. -/
lemma generate_loop_count (render : Renderer) :
    ∀ l acc, (∀ o ∈ l, (render o).1 = true ∨ noContent render o = true) →
      generate_loop render acc l =
        Int.ofNat (acc + l.countP (fun o => (render o).1)) := by
  intro l
  induction l with
  | nil => intro acc _; simp [generate_loop]
  | cons a rs ih =>
    intro acc h
    have ha := h a (List.mem_cons_self a rs)
    have hrest := fun o ho => h o (List.mem_cons_of_mem a ho)
    rcases hr : render a with ⟨b, res⟩
    match b, res with
    | true, res =>
      rw [show generate_loop render acc (a :: rs) = generate_loop render (acc + 1) rs by
        simp [generate_loop, hr]]
      rw [ih (acc + 1) hrest]
      simp [List.countP_cons, hr]
      omega
    | false, some r0 =>
      have hempty : r0.notifications.isEmpty = true := by
        rcases ha with ha | ha
        · rw [hr] at ha; exact absurd ha (by simp)
        · simp only [noContent, hr] at ha; exact ha
      have hlen : r0.notifications.length = 0 := by
        simpa [List.isEmpty_iff_length_eq_zero] using hempty
      rw [show generate_loop render acc (a :: rs) = generate_loop render acc rs by
        simp [generate_loop, hr, hlen]]
      rw [ih acc hrest]
      simp [List.countP_cons, hr]
    | false, none =>
      rcases ha with ha | ha
      · rw [hr] at ha; exact absurd ha (by simp)
      · simp only [noContent, hr] at ha; exact absurd ha (by simp)

/-- Filtering first by the negation of a predicate and then by the
predicate itself leaves nothing. -/
lemma filter_not_filter_eq_nil (p : NotificationDoc → Bool) (docs : List NotificationDoc) :
    (docs.filter (fun d => !(p d))).filter p = [] := by
  induction docs with
  | nil => rfl
  | cons a l ih => by_cases h : p a = true <;> simp [List.filter_cons, h, ih]

/-- Filtering by the negation of a predicate is idempotent. -/
lemma filter_not_idem (p : NotificationDoc → Bool) (docs : List NotificationDoc) :
    (docs.filter (fun d => !(p d))).filter (fun d => !(p d)) =
      docs.filter (fun d => !(p d)) := by
  induction docs with
  | nil => rfl
  | cons a l ih => by_cases h : p a = true <;> simp [List.filter_cons, h, ih]

/-- Renderer for the C1 failing input: organization 3 produces the
unknown outcome (not encrypted, null result) and every other
organization an encrypted success. -/
def renderC1 : Renderer := fun o =>
  if o = 3 then (false, none) else (true, some { notifications := [] })

/-- Environment for the C1 failing input: one stored notification with
a non-empty generated_for array, delivery exit status 0. -/
def envC1 : RunEnv :=
  { db := { requestDocs := [],
            notifications := [{ ticket_owner := 0, generated_for := [9] }] },
    render := renderC1,
    deliveryExit := 0 }

/-- Renderer for the C3 failing input: every organization an encrypted
success. -/
def renderC3 : Renderer := fun _ => (true, some { notifications := [] })

/-- Environment for the C3 failing input: one stored notification with
a non-empty generated_for array, delivery exit status 1 (failure). -/
def envC3 : RunEnv :=
  { db := { requestDocs := [],
            notifications := [{ ticket_owner := 5, generated_for := [5] }] },
    render := renderC3,
    deliveryExit := 1 }

/-- Environment for the C4 failing input: the three-level chain store,
on which the resolver yields the set 0, 1, 2. -/
def envC4 : RunEnv :=
  { db := chainDB,
    render := fun _ => (true, some { notifications := [] }),
    deliveryExit := 0 }

/-- Environment for the C5 witness: an empty store. -/
def envC5 : RunEnv :=
  { db := { requestDocs := [], notifications := [] },
    render := fun _ => (true, some { notifications := [] }),
    deliveryExit := 0 }

/-- Renderer for the C6 failing input: every organization produces the
unknown outcome, so the run has zero generation successes. -/
def renderC6 : Renderer := fun _ => (false, none)

/-- Environment for the C6 failing input. -/
def envC6 : RunEnv :=
  { db := { requestDocs := [], notifications := [] },
    render := renderC6,
    deliveryExit := 0 }

/-- Renderer for the C7 witness: organization 2 produces a no-content
outcome, organizations 1 and 3 encrypted successes. -/
def renderC7 : Renderer := fun o =>
  if o = 2 then (false, some { notifications := [] })
  else (true, some { notifications := [] })

/-- C1: on an unknown renderer outcome the claim says the run aborts
before delivery and delivered-batch cleanup.  On the failing input the
generator does stop at once and returns the -1 sentinel, but main
treats -1 as a truthy count: the delivery collaborator is invoked and
the delivered-batch deletion removes the stored record anyway. -/
theorem unknown_outcome_still_delivers_and_reaps :
    (main_run [3, 4] envC1).numPdfsCreated = -1 ∧
      (main_run [3, 4] envC1).deliveryInvoked = true ∧
      (main_run [3, 4] envC1).deliveredCleanupCount = some 1 ∧
      (main_run [3, 4] envC1).docsAfterDelivered = [] := by
  decide

/-- C2: the claim says find_cyhy_parents terminates on every graph,
in particular returning the singleton of organization 0 on the
one-step cycle.  The code has no revisit protection: on the cyclic
store, whose seed set is exactly the singleton 0, the recursion for
organization 0 exhausts every fuel bound, and so does the whole
resolver - the Python call never terminates. -/
theorem find_cyhy_parents_cycle_diverges :
    findDiverges cycleDB 0 ∧ buildDiverges cycleDB ∧ seedSet cycleDB = {0} :=
  ⟨find_cycle_none, build_cycle_none, by decide⟩

/-- C3: the claim says a non-zero delivery exit status leaves the
delivered batch in the store.  On the failing input the delivery exit
status is 1, yet the delivered-batch deletion runs and removes the
stored record, because the deletion sits outside the exit-status
check; the unconditional ineligible-owner cleanup also runs. -/
theorem failed_delivery_still_reaps_delivered_batch :
    (main_run [5] envC3).deliveryInvoked = true ∧
      (main_run [5] envC3).deliveryExitCode = some 1 ∧
      (main_run [5] envC3).deliveredCleanupCount = some 1 ∧
      (main_run [5] envC3).docsAfterDelivered = [] ∧
      (main_run [5] envC3).ineligibleCleanupRan = true := by
  decide

/-- C4: the claim says the generator receives the resolver output.  On
the chain store the resolver output is the set 0, 1, 2, yet main hands
the generator the ambient cyhy_org_ids value - here the empty list -
and never calls build_notifications_org_list, so organization 0 owed a
notification is absent from the generator input. -/
theorem generator_input_not_resolver_output :
    (main_run [] envC4).generatorInput = [] ∧
      build_notifications_org_list chainDB 3 = some {0, 1, 2} ∧
      (0 : Nat) ∉ (main_run [] envC4).generatorInput := by
  decide

/-- C5: the name cyhy_org_ids is bound nowhere in the module, so every
execution of main that passes the logging prologue fails with a
NameError at the generator call, before any artifact is generated, and
main can never complete a run with exit code 0: the only ok outcome is
the invalid-log-level exit 1 with nothing run and the store
untouched. -/
theorem cyhy_org_ids_unbound_main_always_fails :
    pyLookup "cyhy_org_ids" = none ∧
      (∀ logLevel env, validLogLevel logLevel = true →
        main_exec logLevel env = Except.error (PyError.nameError "cyhy_org_ids")) ∧
      (∀ logLevel env t, main_exec logLevel env = Except.ok t →
        t.exitCode = 1 ∧ t.deliveryInvoked = false ∧ t.numPdfsCreated = 0 ∧
          t.docsFinal = env.db.notifications) := by
  have hl : pyLookup "cyhy_org_ids" = none := rfl
  refine ⟨hl, ?_, ?_⟩
  · intro logLevel env h
    simp [main_exec, h, hl]
  · intro logLevel env t h
    by_cases hv : validLogLevel logLevel = true
    · simp [main_exec, hv, hl] at h
    · simp [main_exec, hv] at h
      simp [← h, configErrorTrace]

/-- Closed witness for C5 at the concrete log level debug and an
empty-store environment. -/
theorem cyhy_org_ids_unbound_witness :
    main_exec "debug" envC5 = Except.error (PyError.nameError "cyhy_org_ids") :=
  cyhy_org_ids_unbound_main_always_fails.2.1 "debug" envC5 (by decide)

/-- C6: the claim says the delivery collaborator is invoked exactly
when the generation success count is positive.  On the failing input
no generation succeeds - the success count over the organization list
is 0 - yet the generator returns the -1 sentinel, main finds it
truthy, and the delivery collaborator is invoked. -/
theorem delivery_invoked_with_zero_successes :
    List.countP (fun o => (renderC6 o).1) [7] = 0 ∧
      (main_run [7] envC6).numPdfsCreated = -1 ∧
      (main_run [7] envC6).deliveryInvoked = true := by
  decide

/-- C7: on a list of organizations whose outcomes are only encrypted
successes or no-content results, generate_notification_pdfs returns
exactly the number of encrypted successes; a no-content outcome leaves
the counter unchanged. -/
theorem generate_counts_encrypted_successes (render : Renderer) (org_ids : List Nat)
    (h : ∀ o ∈ org_ids, (render o).1 = true ∨ noContent render o = true) :
    generate_notification_pdfs render org_ids =
      Int.ofNat (org_ids.countP (fun o => (render o).1)) := by
  simpa [generate_notification_pdfs] using generate_loop_count render org_ids 0 h

/-- Closed witness for C7: two encrypted successes and one no-content
outcome yield the count 2. -/
theorem generate_counts_witness :
    generate_notification_pdfs renderC7 [1, 2, 3] = 2 :=
  (generate_counts_encrypted_successes renderC7 [1, 2, 3] (by decide)).trans (by decide)

/-- C8 counterexample: the claim quantifies over every store, but on
the cyclic store the seed set is non-empty while the resolver
exhausts every fuel bound, so no resolver output exists at all, let
alone one equal to the seed-and-ancestor union. -/
theorem resolver_diverges_on_cycle_counterexample :
    seedSet cycleDB ≠ ∅ ∧ buildDiverges cycleDB :=
  ⟨by decide, build_cycle_none⟩

/-- C8 amended: on every store on which the resolver terminates, its
output is the union of the seed set and the transitive CYHY parents of
seed organizations - hence a superset of the seed set containing
nothing unreachable from a seed via parent edges, with each ancestor
counted once as a set member, and empty whenever the seed set is
empty. -/
theorem resolver_output_characterization (db : DB) (fuel : Nat) (s : Finset Nat)
    (h : build_notifications_org_list db fuel = some s) :
    seedSet db ⊆ s ∧
      (∀ x, x ∈ s ↔ x ∈ seedSet db ∨
        ∃ a ∈ seedSet db, Relation.TransGen (ParentOf db) a x) ∧
      (seedSet db = ∅ → s = ∅) := by
  have hiff := build_notifications_org_list_mem_iff db h
  refine ⟨fun x hx => (hiff x).mpr (Or.inl hx), hiff, fun hempty => ?_⟩
  apply Finset.eq_empty_iff_forall_not_mem.mpr
  intro x hx
  rcases (hiff x).mp hx with hx' | ⟨a, ha, _⟩
  · rw [hempty] at hx'
    exact absurd hx' (Finset.not_mem_empty x)
  · rw [hempty] at ha
    exact absurd ha (Finset.not_mem_empty a)

/-- Closed witness for C8 on the acyclic three-level chain store with
resolver output 0, 1, 2. -/
theorem resolver_output_characterization_witness :
    seedSet chainDB ⊆ ({0, 1, 2} : Finset Nat) :=
  (resolver_output_characterization chainDB 3 {0, 1, 2} (by decide)).1

/-- C9: the delivered-batch deletion is idempotent - run twice in
immediate succession, the second run deletes nothing, reports a count
of zero, and leaves the store unchanged. -/
theorem delivered_batch_cleanup_idempotent (docs : List NotificationDoc) :
    (delete_many deliveredPred (delete_many deliveredPred docs).1).2 = 0 ∧
      (delete_many deliveredPred (delete_many deliveredPred docs).1).1 =
        (delete_many deliveredPred docs).1 := by
  constructor
  · simp [delete_many, filter_not_filter_eq_nil]
  · simp [delete_many, filter_not_idem]

/-- The ineligible-owner predicate as a pointwise Boolean function, in
the shape the filter lemmas need. -/
lemma ineligiblePred_eq (cyhy_org_ids : List Nat) :
    ineligiblePred cyhy_org_ids =
      fun d => !decide (d.ticket_owner ∈ cyhy_org_ids) := by
  funext d
  simp [ineligiblePred, decide_not]

/-- C10: on every run of the pipeline body, whatever the delivery
outcome and whether delivery was invoked at all, the ineligible-owner
cleanup runs, its final store keeps exactly the records whose owner is
in the cyhy_org_ids universe, and the reported count is exactly the
number of records whose owner is outside that universe. -/
theorem ineligible_cleanup_unconditional (cyhy_org_ids : List Nat) (env : RunEnv) :
    (main_run cyhy_org_ids env).ineligibleCleanupRan = true ∧
      (main_run cyhy_org_ids env).docsFinal =
        (main_run cyhy_org_ids env).docsAfterDelivered.filter
          (fun d => decide (d.ticket_owner ∈ cyhy_org_ids)) ∧
      (main_run cyhy_org_ids env).ineligibleCleanupCount =
        ((main_run cyhy_org_ids env).docsAfterDelivered.filter
          (fun d => decide (d.ticket_owner ∉ cyhy_org_ids))).length := by
  unfold main_run
  by_cases h : generate_notification_pdfs env.render cyhy_org_ids ≠ 0 <;>
    simp [h, delete_many, ineligiblePred_eq, decide_not, Bool.not_not]

end CreateSendNotifications
